import Mathlib

set_option linter.unusedVariables false

/-!
Verification development for the Gallaryai generation-orchestration layer.

Strings of the TypeScript source are modelled as lists of characters.
Network effects are modelled with explicit oracles describing the external
generative services outcome at each call; services return Except values.
Error objects carry their message, whether they were constructed through the
ApiError class, and the quota flag. Apostrophe characters appearing inside a
few source message literals are elided from the corresponding constants; no
claim depends on them.
-/

/-- A thrown JavaScript error: its message, whether it is an ApiError of
geminiService.ts, and the ApiError quota flag (false for plain errors). -/
structure JsError where
  message : List Char
  isApiError : Bool
  isQuotaError : Bool
deriving DecidableEq, Repr

/-- A plain JavaScript Error (new Error(msg)). -/
def plainError (msg : List Char) : JsError :=
  { message := msg, isApiError := false, isQuotaError := false }

/-- The ApiError class of geminiService.ts: message plus quota flag. -/
def apiError (msg : List Char) (quota : Bool) : JsError :=
  { message := msg, isApiError := true, isQuotaError := quota }

/-- Boolean test that the pattern is an initial run of the list
(String.prototype.startsWith of JavaScript). -/
def leadsWith : List Char → List Char → Bool
  | [], _ => true
  | _ :: _, [] => false
  | a :: as, b :: bs => a == b && leadsWith as bs

/-- Index of the first occurrence of the pattern as a contiguous run
(String.prototype.indexOf of JavaScript; none models the -1 result). -/
def findSubstr (pat : List Char) : List Char → Option Nat
  | [] => if leadsWith pat [] then some 0 else none
  | c :: rest =>
    if leadsWith pat (c :: rest) then some 0
    else (findSubstr pat rest).map (· + 1)

/-- String.prototype.substring of JavaScript: swaps its endpoints when
given in the wrong order and clamps to the string. -/
def jsSubstring (s : List Char) (a b : Nat) : List Char :=
  (s.drop (min a b)).take (max a b - min a b)

/-- Whitespace recognised by the model of String.prototype.trim. -/
def isJsWs (c : Char) : Bool :=
  c == ' ' || c == '\t' || c == '\n' || c == '\r'

/-- String.prototype.trim of JavaScript: removes leading and trailing
whitespace. -/
def jsTrim (s : List Char) : List Char :=
  ((s.dropWhile isJsWs).reverse.dropWhile isJsWs).reverse

-- String constants of dataUrlToGenaiPart (geminiService.ts lines 36-48).

/-- The base64 marker searched for by dataUrlToGenaiPart: ";base64,". -/
def base64Marker : List Char := [';', 'b', 'a', 's', 'e', '6', '4', ',']

/-- The five characters of "data:". -/
def dataColon : List Char := ['d', 'a', 't', 'a', ':']

/-- The prefix "data:image/" demanded by dataUrlToGenaiPart. -/
def dataImageHead : List Char :=
  ['d', 'a', 't', 'a', ':', 'i', 'm', 'a', 'g', 'e', '/']

/-- First part of the dataUrlToGenaiPart error message. -/
def formatErrHead : List Char := "Invalid image data URL format for ".toList

/-- Last part of the dataUrlToGenaiPart error message (source apostrophes
elided). -/
def formatErrTail : List Char := ". Expected data:image/...;base64,...".toList

/-- The full dataUrlToGenaiPart error message for a given context label. -/
def formatErrMsg (errorContext : List Char) : List Char :=
  formatErrHead ++ errorContext ++ formatErrTail

/-- The inlineData payload of a Gemini request part: a MIME type together
with the base64 payload. -/
structure InlinePart where
  mimeType : List Char
  data : List Char
deriving DecidableEq, Repr

/-- dataUrlToGenaiPart of geminiService.ts: splits a data URL at the first
";base64," marker after checking the "data:image/" prefix; throws a format
error naming the context otherwise. -/
def dataUrlToGenaiPart (imageDataUrl errorContext : List Char) :
    Except JsError InlinePart :=
  match findSubstr base64Marker imageDataUrl with
  | none => .error (plainError (formatErrMsg errorContext))
  | some base64MarkerIndex =>
    if leadsWith dataImageHead imageDataUrl then
      .ok { mimeType := jsSubstring imageDataUrl 5 base64MarkerIndex,
            data := imageDataUrl.drop (base64MarkerIndex + base64Marker.length) }
    else .error (plainError (formatErrMsg errorContext))

-- Model of the GenerateContentResponse shape consumed by
-- processGeminiResponse (candidates[0].content.parts chain plus text).

/-- One response part; image parts carry inlineData. -/
structure ResponsePart where
  inlineData : Option InlinePart
deriving DecidableEq, Repr

/-- The content of a response candidate. -/
structure ResponseContent where
  parts : Option (List ResponsePart)
deriving DecidableEq, Repr

/-- One response candidate. -/
structure ResponseCandidate where
  content : Option ResponseContent
deriving DecidableEq, Repr

/-- The service response consumed by processGeminiResponse. -/
structure GenResponse where
  candidates : Option (List ResponseCandidate)
  text : Option (List Char)
deriving DecidableEq, Repr

/-- The data URL built by processGeminiResponse from an inline image part:
data:mimeType;base64,payload. -/
def mkDataUrl (mimeType data : List Char) : List Char :=
  dataColon ++ mimeType ++ base64Marker ++ data

/-- Fallback text of the no-image error message. -/
def noTextFallback : List Char := "No text response received.".toList

/-- The message of the error thrown when the service returned no image. -/
def noImageMsg (textResponse : Option (List Char)) : List Char :=
  ("The AI model responded with text instead of an image: \"".toList) ++
    (match textResponse with
     | some t => if t = [] then noTextFallback else t
     | none => noTextFallback) ++ "\"".toList

/-- processGeminiResponse of geminiService.ts: extracts the first inline
image part as a data URL, or throws naming any text the service returned. -/
def processGeminiResponse (response : GenResponse) : Except JsError (List Char) :=
  let imagePartFromResponse :=
    (((response.candidates.bind List.head?).bind
        ResponseCandidate.content).bind ResponseContent.parts).bind
      (fun parts => parts.find? (fun part => part.inlineData.isSome))
  match imagePartFromResponse.bind ResponsePart.inlineData with
  | some d => .ok (mkDataUrl d.mimeType d.data)
  | none => .error (plainError (noImageMsg response.text))

-- Retry wrapper (geminiService.ts lines 75-104).

/-- Maximum number of attempts made by callGeminiWithRetry. -/
def maxRetries : Nat := 3

/-- Base backoff delay of callGeminiWithRetry, in milliseconds. -/
def initialDelay : Nat := 1000

/-- The transient-failure signature tested by callGeminiWithRetry: the
message mentions a code 500 or INTERNAL. -/
def isInternalError (errorMessage : List Char) : Bool :=
  (findSubstr ("\"code\":500".toList) errorMessage).isSome ||
    (findSubstr ("INTERNAL".toList) errorMessage).isSome

/-- Message of the unreachable post-loop throw of callGeminiWithRetry. -/
def retriesExhaustedMsg : List Char :=
  "Gemini API call failed after all retries.".toList

/-- Decidable equality of service outcomes, for evaluating witnesses. -/
instance {ε α : Type} [DecidableEq ε] [DecidableEq α] : DecidableEq (Except ε α) :=
  fun x y =>
    match x, y with
    | .ok a, .ok b => decidable_of_iff (a = b) (by simp)
    | .error e, .error f => decidable_of_iff (e = f) (by simp)
    | .ok _, .error _ => isFalse (by simp)
    | .error _, .ok _ => isFalse (by simp)

/-- Observable trace of one callGeminiWithRetry run: the outcome, how many
service calls were made, and the backoff delays slept (milliseconds). -/
structure RetryTrace (ρ : Type) where
  result : Except JsError ρ
  calls : Nat
  delays : List Nat
deriving DecidableEq, Repr

/-- The attempt loop of callGeminiWithRetry. The oracle gives the service
outcome of each numbered attempt; the fuel counts loop iterations left and
equals maxRetries - attempt + 1 at every reachable call. -/
def callGeminiLoop {ρ : Type} (oracle : Nat → Except JsError ρ)
    (attempt : Nat) : Nat → RetryTrace ρ
  | 0 => { result := .error (plainError retriesExhaustedMsg), calls := 0, delays := [] }
  | fuel + 1 =>
    match oracle attempt with
    | .ok r => { result := .ok r, calls := 1, delays := [] }
    | .error e =>
      if isInternalError e.message = true ∧ attempt < maxRetries then
        let rest := callGeminiLoop oracle (attempt + 1) fuel
        { result := rest.result, calls := rest.calls + 1,
          delays := initialDelay * 2 ^ (attempt - 1) :: rest.delays }
      else { result := .error e, calls := 1, delays := [] }

/-- callGeminiWithRetry of geminiService.ts, as a trace over an oracle of
per-attempt service outcomes. -/
def callGeminiWithRetry {ρ : Type} (oracle : Nat → Except JsError ρ) :
    RetryTrace ρ :=
  callGeminiLoop oracle 1 maxRetries

-- Quota classification shared by every generation function.

/-- The quota/rate-limit signature: the message contains "429" or
"RESOURCE_EXHAUSTED". -/
def hasQuotaSignature (rawErrorMessage : List Char) : Bool :=
  (findSubstr ("429".toList) rawErrorMessage).isSome ||
    (findSubstr ("RESOURCE_EXHAUSTED".toList) rawErrorMessage).isSome

/-- The catch block of generateScenarios: quota-flagged ApiError on a quota
signature, generic ApiError carrying the raw message otherwise. -/
def classifyScenariosError (e : JsError) : JsError :=
  if hasQuotaSignature e.message then
    apiError ("Failed to generate creative ideas due to API usage limits.".toList) true
  else
    apiError (("The AI failed to generate creative ideas. Details: ".toList) ++ e.message) false

/-- The catch block of generateStyledImage. -/
def classifyStyledImageError (e : JsError) : JsError :=
  if hasQuotaSignature e.message then
    apiError ("Image generation failed due to API usage limits. Please check your quota in Google AI Studio.".toList) true
  else
    apiError (("The AI model failed to generate an image. Details: ".toList) ++ e.message) false

/-- The catch block of generateMemeImage. -/
def classifyMemeError (e : JsError) : JsError :=
  if hasQuotaSignature e.message then
    apiError ("Meme generation failed due to API usage limits.".toList) true
  else
    apiError (("The AI model failed to generate the meme. Details: ".toList) ++ e.message) false

/-- The catch block of analyzeImageContent. -/
def classifyAnalyzeError (e : JsError) : JsError :=
  if hasQuotaSignature e.message then
    apiError ("Image analysis failed due to API usage limits.".toList) true
  else
    apiError (("The AI model failed to analyze the image content. Details: ".toList) ++ e.message) false

/-- The catch block of generateStyledVideo. -/
def classifyVideoError (e : JsError) : JsError :=
  if hasQuotaSignature e.message then
    apiError ("Video generation failed due to API usage limits. Please check your quota in Google AI Studio.".toList) true
  else
    apiError (("The AI model failed to generate a video. Details: ".toList) ++ e.message) false

-- Model of the JSON.parse platform builtin used by generateScenarios.

/-- The opening brace character, written numerically. -/
def obraceC : Char := Char.ofNat 123

/-- The closing brace character, written numerically. -/
def cbraceC : Char := Char.ofNat 125

/-- A parsed JSON value. Numbers are kept as their raw character run, as no
claim inspects numeric values. -/
inductive Json where
  | null
  | bool (b : Bool)
  | num (raw : List Char)
  | str (s : List Char)
  | arr (elems : List Json)
  | obj (fields : List (List Char × Json))

/-- Characters that may appear in a JSON number token. -/
def isJsonNumChar (c : Char) : Bool :=
  c.isDigit || c == '-' || c == '+' || c == '.' || c == 'e' || c == 'E'

/-- Body of a JSON string after the opening quote: the decoded characters
and the rest of the input. Common escapes are mapped; others keep the
escaped character. -/
def parseStringBody : List Char → Option (List Char × List Char)
  | [] => none
  | c :: rest =>
    if c = '"' then some ([], rest)
    else if c = '\\' then
      match rest with
      | [] => none
      | d :: rest2 =>
        let m := if d = 'n' then '\n' else if d = 't' then '\t'
                 else if d = 'r' then '\r' else d
        (parseStringBody rest2).map (fun p => (m :: p.1, p.2))
    else (parseStringBody rest).map (fun p => (c :: p.1, p.2))

mutual

/-- Modelled from the platform: one JSON value (JSON.parse builtin of the
JavaScript runtime, which is not repository code). Fuel bounds the
recursion depth; parseJson supplies enough for any input. -/
def parseVal : Nat → List Char → Option (Json × List Char)
  | 0, _ => none
  | fuel + 1, input =>
    match input.dropWhile isJsWs with
    | [] => none
    | c :: rest =>
      if c = '"' then
        match parseStringBody rest with
        | some (s, r) => some (Json.str s, r)
        | none => none
      else if c = '[' then parseArrBody fuel rest
      else if c = obraceC then parseObjBody fuel rest
      else if leadsWith ("true".toList) (c :: rest) then
        some (Json.bool true, (c :: rest).drop 4)
      else if leadsWith ("false".toList) (c :: rest) then
        some (Json.bool false, (c :: rest).drop 5)
      else if leadsWith ("null".toList) (c :: rest) then
        some (Json.null, (c :: rest).drop 4)
      else if isJsonNumChar c then
        some (Json.num ((c :: rest).takeWhile isJsonNumChar),
              (c :: rest).dropWhile isJsonNumChar)
      else none

/-- The inside of a JSON array, after the opening bracket. -/
def parseArrBody : Nat → List Char → Option (Json × List Char)
  | 0, _ => none
  | fuel + 1, input =>
    match input.dropWhile isJsWs with
    | ']' :: r => some (Json.arr [], r)
    | s =>
      match parseVal fuel s with
      | none => none
      | some (v, r1) => parseArrTail fuel [v] r1

/-- Remaining elements of a JSON array, accumulated in reverse. -/
def parseArrTail : Nat → List Json → List Char → Option (Json × List Char)
  | 0, _, _ => none
  | fuel + 1, acc, input =>
    match input.dropWhile isJsWs with
    | ']' :: r => some (Json.arr acc.reverse, r)
    | ',' :: r =>
      match parseVal fuel r with
      | none => none
      | some (v, r2) => parseArrTail fuel (v :: acc) r2
    | _ => none

/-- The inside of a JSON object, after the opening brace. -/
def parseObjBody : Nat → List Char → Option (Json × List Char)
  | 0, _ => none
  | fuel + 1, input =>
    match input.dropWhile isJsWs with
    | c :: r =>
      if c = cbraceC then some (Json.obj [], r)
      else
        match parseObjMember fuel (c :: r) with
        | none => none
        | some (kv, r1) => parseObjTail fuel [kv] r1
    | [] => none

/-- One key-value member of a JSON object. -/
def parseObjMember : Nat → List Char →
    Option ((List Char × Json) × List Char)
  | 0, _ => none
  | fuel + 1, input =>
    match input.dropWhile isJsWs with
    | '"' :: r =>
      match parseStringBody r with
      | none => none
      | some (k, r1) =>
        match r1.dropWhile isJsWs with
        | ':' :: r2 =>
          match parseVal fuel r2 with
          | none => none
          | some (v, r3) => some ((k, v), r3)
        | _ => none
    | _ => none

/-- Remaining members of a JSON object, accumulated in reverse. -/
def parseObjTail : Nat → List (List Char × Json) → List Char →
    Option (Json × List Char)
  | 0, _, _ => none
  | fuel + 1, acc, input =>
    match input.dropWhile isJsWs with
    | c :: r =>
      if c = cbraceC then some (Json.obj acc.reverse, r)
      else if c = ',' then
        match parseObjMember fuel r with
        | none => none
        | some (kv, r2) => parseObjTail fuel (kv :: acc) r2
      else none
    | [] => none

end

/-- Modelled from the platform: JSON.parse of the JavaScript runtime. The
whole input must be one JSON value surrounded by whitespace; none models a
thrown SyntaxError. -/
def parseJson (s : List Char) : Option Json :=
  match parseVal (2 * s.length + 2) s with
  | some (v, rest) => if (rest.dropWhile isJsWs).isEmpty then some v else none
  | none => none

-- generateScenarios (geminiService.ts lines 115-207).

/-- Outcome of a service-facing function together with the number of
network calls it performed. -/
structure Outcome (α : Type) where
  result : Except JsError α
  networkCalls : Nat

/-- The fixed zero-input fallback list of generateScenarios. -/
def fallbackScenarios : List (List Char) :=
  ["A mysterious figure in a neon-lit alley at midnight.".toList,
   "A surreal portrait of an artist lost in their creative process.".toList,
   "A whimsical character discovering a hidden, enchanted forest.".toList,
   "A vintage-style photograph of a lone traveler at a forgotten train station.".toList,
   "A high-fashion concept shot with dramatic, colorful lighting and abstract shapes.".toList]

/-- Message of the throw raised when the parsed response is not a valid
non-empty array of strings. -/
def invalidScenarioMsg : List Char :=
  "AI did not return a valid array of scenario strings.".toList

/-- Modelled from the platform: the SyntaxError thrown by JSON.parse on
invalid input. The exact runtime text varies; what matters to the claims is
that it carries no quota signature, which holds for the real messages. -/
def jsonParseError : JsError :=
  plainError ("Unexpected token in JSON".toList)

/-- The fenced-code-block stripping generateScenarios applies to the
trimmed response text before parsing. -/
def stripCodeFence (jsonText : List Char) : List Char :=
  if leadsWith ("```json".toList) jsonText then
    jsTrim (jsSubstring jsonText 7 (jsonText.length - 3))
  else if leadsWith ("```".toList) jsonText then
    jsTrim (jsSubstring jsonText 3 (jsonText.length - 3))
  else jsonText

/-- Reads a JSON array whose elements are all strings. -/
def asStringList : List Json → Option (List (List Char))
  | [] => some []
  | Json.str s :: rest => (asStringList rest).map (s :: ·)
  | _ => none

/-- generateScenarios of geminiService.ts. The three descriptions and the
optional user prompt (absence modelled as the empty string) decide between
the fallback list and a service call; the service outcome parameter is the
text of that call. Prompt text built for the service is not modelled, as no
claim mentions it. -/
def generateScenarios (personDesc objectDesc styleDesc userPrompt : List Char)
    (service : Except JsError (List Char)) : Outcome (List (List Char)) :=
  let inputs : List (List Char) :=
    (if personDesc ≠ [] then [personDesc] else []) ++
    (if objectDesc ≠ [] then [objectDesc] else []) ++
    (if styleDesc ≠ [] then [styleDesc] else [])
  let hasUserPrompt : Bool :=
    decide (userPrompt ≠ []) && decide ((jsTrim userPrompt).length > 0)
  if inputs.length = 0 ∧ hasUserPrompt = false then
    { result := .ok fallbackScenarios, networkCalls := 0 }
  else
    match service with
    | .error e => { result := .error (classifyScenariosError e), networkCalls := 1 }
    | .ok text =>
      let jsonText := stripCodeFence (jsTrim text)
      match parseJson jsonText with
      | none =>
        { result := .error (classifyScenariosError jsonParseError), networkCalls := 1 }
      | some (Json.arr elems) =>
        if elems.isEmpty then
          { result := .error (classifyScenariosError (plainError invalidScenarioMsg)),
            networkCalls := 1 }
        else
          match asStringList elems with
          | some scenarios => { result := .ok (scenarios.take 5), networkCalls := 1 }
          | none =>
            { result := .error (classifyScenariosError (plainError invalidScenarioMsg)),
              networkCalls := 1 }
      | some _ =>
        { result := .error (classifyScenariosError (plainError invalidScenarioMsg)),
          networkCalls := 1 }

-- generateStyledImage (geminiService.ts lines 215-244).

/-- The three source image collections. -/
structure ImageSets where
  personImages : List (List Char)
  productImages : List (List Char)
  styleImages : List (List Char)

/-- generateStyledImage of geminiService.ts: decodes every source image
(failures there propagate unclassified, as the decoding happens before the
try block), then runs the retry wrapper and extracts the image; failures of
those two steps are classified by the catch block. -/
def generateStyledImage (images : ImageSets) (prompt : List Char)
    (oracle : Nat → Except JsError GenResponse) : Except JsError (List Char) :=
  match images.personImages.mapM (fun url => dataUrlToGenaiPart url ("Person Image".toList)) with
  | .error e => .error e
  | .ok _personParts =>
  match images.productImages.mapM (fun url => dataUrlToGenaiPart url ("Product Image".toList)) with
  | .error e => .error e
  | .ok _productParts =>
  match images.styleImages.mapM (fun url => dataUrlToGenaiPart url ("Style Image".toList)) with
  | .error e => .error e
  | .ok _styleParts =>
    match (callGeminiWithRetry oracle).result with
    | .error e => .error (classifyStyledImageError e)
    | .ok response =>
      match processGeminiResponse response with
      | .ok url => .ok url
      | .error e => .error (classifyStyledImageError e)

-- generateMemeImage (geminiService.ts lines 252-271).

/-- generateMemeImage of geminiService.ts: decodes the source image (before
the try block), then runs the retry wrapper and extracts the image,
classifying failures of those steps. -/
def generateMemeImage (imageDataUrl memeText : List Char)
    (oracle : Nat → Except JsError GenResponse) : Except JsError (List Char) :=
  match dataUrlToGenaiPart imageDataUrl ("Meme Source Image".toList) with
  | .error e => .error e
  | .ok _imagePart =>
    match (callGeminiWithRetry oracle).result with
    | .error e => .error (classifyMemeError e)
    | .ok response =>
      match processGeminiResponse response with
      | .ok url => .ok url
      | .error e => .error (classifyMemeError e)

-- analyzeImageContent (geminiService.ts lines 280-304).

/-- analyzeImageContent of geminiService.ts: returns the empty string with
no network call when given no images; otherwise decodes them, performs one
service call (no retry wrapper) and returns its trimmed text, classifying
failures of the call. -/
def analyzeImageContent (imageDataUrls : List (List Char)) (prompt : List Char)
    (service : Except JsError (List Char)) : Outcome (List Char) :=
  if imageDataUrls = [] then { result := .ok [], networkCalls := 0 }
  else
    match imageDataUrls.mapM (fun url => dataUrlToGenaiPart url ("Image for analysis".toList)) with
    | .error e => { result := .error e, networkCalls := 0 }
    | .ok _imageParts =>
      match service with
      | .ok text => { result := .ok (jsTrim text), networkCalls := 1 }
      | .error e => { result := .error (classifyAnalyzeError e), networkCalls := 1 }

-- generateStyledVideo (geminiService.ts lines 313-376).

/-- Word characters of the regular-expression class backslash-w. -/
def isWordChar (c : Char) : Bool := c.isAlphanum || c == '_'

/-- The stricter validation regex of generateStyledVideo: the anchored
pattern data:(image/w+);base64,(.*) where the dot excludes line
terminators. Returns the two captures (MIME type, base64 payload). -/
def videoUrlMatch (imageDataUrl : List Char) :
    Option (List Char × List Char) :=
  if leadsWith dataImageHead imageDataUrl then
    let afterSlash := imageDataUrl.drop dataImageHead.length
    let subtype := afterSlash.takeWhile isWordChar
    let rest1 := afterSlash.dropWhile isWordChar
    if subtype ≠ [] ∧ leadsWith base64Marker rest1 = true then
      let payload := rest1.drop base64Marker.length
      if payload.all (fun c => ¬ (c = '\n' ∨ c = '\r')) then
        some (("image/".toList) ++ subtype, payload)
      else none
    else none
  else none

/-- The video reference inside a generated-videos entry. -/
structure VideoRef where
  uri : Option (List Char)

/-- One entry of the generatedVideos list of a video operation response. -/
structure GeneratedVideoEntry where
  video : Option VideoRef

/-- The response carried by a completed video operation. -/
structure VideoOpResponse where
  generatedVideos : Option (List GeneratedVideoEntry)

/-- A long-running video operation as observed between polls. -/
structure VideoOperation where
  done : Bool
  response : Option VideoOpResponse

/-- The optional chain operation.response.generatedVideos[0].video.uri. -/
def operationDownloadLink (op : VideoOperation) : Option (List Char) :=
  (((op.response.bind VideoOpResponse.generatedVideos).bind
      List.head?).bind GeneratedVideoEntry.video).bind VideoRef.uri

/-- The fetch response for the video download (ok flag, statusText and an
opaque handle standing for the downloaded blob). -/
structure FetchResponse where
  ok : Bool
  statusText : List Char
  blobId : Nat
deriving DecidableEq, Repr

/-- Observable trace of one generateStyledVideo run: the outcome (an opaque
blob handle on success), the waits slept by the polling loop (milliseconds),
and how many download fetches were issued. -/
structure VideoRun where
  result : Except JsError Nat
  waits : List Nat
  fetchCalls : Nat
deriving DecidableEq, Repr

/-- The while-not-done polling loop of generateStyledVideo: each iteration
waits 10 seconds then re-queries the operation. The scripted poll outcomes
drive it; none models the loop still running past the script (the source
loop is unbounded). Returns the final operation or thrown poll error, with
the list of waits. -/
def pollVideoOperation :
    VideoOperation → List (Except JsError VideoOperation) →
    Option (Except JsError VideoOperation × List Nat)
  | op, polls =>
    if op.done then some (.ok op, [])
    else
      match polls with
      | [] => none
      | .error e :: _ => some (.error e, [10000])
      | .ok op2 :: rest =>
        (pollVideoOperation op2 rest).map (fun r => (r.1, 10000 :: r.2))

/-- Message of the throw raised when the operation completes without a
download link. -/
def noDownloadLinkMsg : List Char :=
  "Video generation completed, but no download link was provided.".toList

/-- Message of the throw raised when the download fetch is not ok. -/
def downloadFailedMsg (statusText : List Char) : List Char :=
  ("Failed to download video file. Status: ".toList) ++ statusText

/-- generateStyledVideo of geminiService.ts: validates the data URL with
the stricter regex (that throw happens before the try block and is not
classified), starts the operation, polls it to completion on a 10-second
cadence, requires a download link, fetches it with the credential appended
and returns a handle to the downloaded blob; failures inside the try block
are classified by the catch block. none models a run still inside the
unbounded polling loop after the scripted polls. -/
def generateStyledVideo (imageDataUrl prompt : List Char)
    (startResult : Except JsError VideoOperation)
    (polls : List (Except JsError VideoOperation))
    (fetchOracle : List Char → Except JsError FetchResponse) :
    Option VideoRun :=
  match videoUrlMatch imageDataUrl with
  | none =>
    some { result := .error (plainError ("Invalid image data URL format for video generation.".toList)),
           waits := [], fetchCalls := 0 }
  | some _captures =>
    match startResult with
    | .error e =>
      some { result := .error (classifyVideoError e), waits := [], fetchCalls := 0 }
    | .ok operation =>
      match pollVideoOperation operation polls with
      | none => none
      | some (.error e, waits) =>
        some { result := .error (classifyVideoError e), waits := waits, fetchCalls := 0 }
      | some (.ok finalOp, waits) =>
        match operationDownloadLink finalOp with
        | none =>
          some { result := .error (classifyVideoError (plainError noDownloadLinkMsg)),
                 waits := waits, fetchCalls := 0 }
        | some downloadLink =>
          match fetchOracle downloadLink with
          | .error e =>
            some { result := .error (classifyVideoError e), waits := waits, fetchCalls := 1 }
          | .ok response =>
            if response.ok then
              some { result := .ok response.blobId, waits := waits, fetchCalls := 1 }
            else
              some { result := .error (classifyVideoError (plainError (downloadFailedMsg response.statusText))),
                     waits := waits, fetchCalls := 1 }

-- App.tsx orchestration layer.

/-- Per-item status of App.tsx. -/
inductive ImageStatus where
  | idle
  | pending
  | done
  | error
deriving DecidableEq, Repr

/-- Overall session phase of App.tsx. -/
inductive AppPhase where
  | idle
  | ready
  | generating
  | resultsShown
deriving DecidableEq, Repr

/-- One GenerationItem of App.tsx (the GeneratedImage interface). -/
structure GeneratedImage where
  status : ImageStatus
  url : Option (List Char) := none
  error : Option (List Char) := none
  isQuotaError : Option Bool := none
deriving DecidableEq, Repr

/-- The number of display slots seeded by a full-session run. -/
def IMAGE_COUNT : Nat := 5

/-- The committed session state tracked by App.tsx that the claims
mention. -/
structure AppSession where
  generatedImages : List GeneratedImage
  sessionScenarios : List (List Char)
  appState : AppPhase
deriving DecidableEq, Repr

/-- The analysis prompt for the person images. -/
def personAnalysisPrompt : List Char :=
  "Describe the person in this portrait, including their key features, clothing, and expression.".toList

/-- The analysis prompt for the object images. -/
def objectAnalysisPrompt : List Char :=
  "Describe the primary object in this image, including its color, shape, and type.".toList

/-- The analysis prompt for the style images. -/
def styleAnalysisPrompt : List Char :=
  "Describe the artistic style of this image, including its mood, lighting, color palette, and composition.".toList

/-- Promise.all over the three concurrent analysis calls: rejects with the
first failure, resolves with the triple otherwise. -/
def promiseAll3 {α β γ : Type} :
    Except JsError α → Except JsError β → Except JsError γ →
    Except JsError (α × β × γ)
  | .error e, _, _ => .error e
  | .ok _, .error e, _ => .error e
  | .ok _, .ok _, .error e => .error e
  | .ok a, .ok b, .ok c => .ok (a, b, c)

/-- generateImageForIndex of App.tsx, at the generateStyledImage outcome
boundary: its catch block rethrows the failure message as a plain Error
(dropping the ApiError class and quota flag). The prompt it assembles is
not modelled, as no claim mentions it. -/
def generateImageForIndex (styledImageOutcome : Except JsError (List Char)) :
    Except JsError (List Char) :=
  match styledImageOutcome with
  | .ok resultUrl => .ok resultUrl
  | .error err => .error (plainError err.message)

/-- The Promise.allSettled mapping of handleGenerateClick: a fulfilled task
becomes a done item with its URL, a rejected one an error item carrying the
reason message (with a fallback for an empty message) and the ApiError
quota flag of the reason. -/
def settleImageResult (outcome : Except JsError (List Char)) : GeneratedImage :=
  match outcome with
  | .ok url => { status := .done, url := some url }
  | .error reason =>
    { status := .error,
      error := some (if reason.message = [] then "Generation Failed".toList
                     else reason.message),
      isQuotaError := some (reason.isApiError && reason.isQuotaError) }

/-- The item committed to every slot by the global-failure handler of
handleGenerateClick. -/
def globalErrorImage (e : JsError) : GeneratedImage :=
  { status := .error, error := some e.message,
    isQuotaError := some (e.isApiError && e.isQuotaError) }

/-- handleGenerateClick of App.tsx. The oracles give the outcomes of the
three analysis service calls, of the scenario service call, and of the
generateStyledImage call dispatched for each index and scenario. Returns
the committed session state. The transient generating phase and the
optimistic pending overlay are overwritten before the run settles and are
not part of the committed state. -/
def handleGenerateClick
    (personImages productImages styleImages : List (List Char))
    (mainPrompt : List Char)
    (personService productService styleService : Except JsError (List Char))
    (scenarioService : Except JsError (List Char))
    (styledImage : Nat → List Char → Except JsError (List Char))
    (st : AppSession) : AppSession :=
  if personImages = [] ∧ productImages = [] ∧ styleImages = [] then st
  else
    let a1 := analyzeImageContent personImages personAnalysisPrompt personService
    let a2 := analyzeImageContent productImages objectAnalysisPrompt productService
    let a3 := analyzeImageContent styleImages styleAnalysisPrompt styleService
    match promiseAll3 a1.result a2.result a3.result with
    | .error e =>
      { st with generatedImages := List.replicate IMAGE_COUNT (globalErrorImage e),
                appState := .resultsShown }
    | .ok (personDesc, objectDesc, styleDesc) =>
      match (generateScenarios personDesc objectDesc styleDesc mainPrompt scenarioService).result with
      | .error e =>
        { st with generatedImages := List.replicate IMAGE_COUNT (globalErrorImage e),
                  appState := .resultsShown }
      | .ok newSessionScenarios =>
        let safeScenarios := newSessionScenarios
        let results := safeScenarios.mapIdx
          (fun index scenario => generateImageForIndex (styledImage index scenario))
        let newImages := results.map settleImageResult
        { generatedImages := newImages,
          sessionScenarios := safeScenarios,
          appState := .resultsShown }

/-- The pending item written optimistically while a regeneration is in
flight. -/
def pendingImage : GeneratedImage := { status := .pending }

/-- The two stages of one handleRegenerateImage run: the optimistic list
shown while the dispatch is in flight, and the committed list after it
settles. -/
structure RegenResult where
  optimistic : List GeneratedImage
  committed : List GeneratedImage
deriving DecidableEq, Repr

/-- handleRegenerateImage of App.tsx: a no-op when the indexed scenario is
missing or empty (the falsy guard); otherwise overlays a pending item at
the index, re-dispatches generation for that scenario, and commits the
terminal item at the same index through an index-addressed functional
update. The array write is modelled for indices of existing items, which
is every index the orchestration regenerates. -/
def handleRegenerateImage (index : Nat)
    (styledImageOutcome : Except JsError (List Char))
    (sessionScenarios : List (List Char))
    (images : List GeneratedImage) : RegenResult :=
  if sessionScenarios.getD index [] = [] then
    { optimistic := images, committed := images }
  else
    let newOptimistic := images.set index pendingImage
    let committed :=
      match generateImageForIndex styledImageOutcome with
      | .ok resultUrl =>
        images.set index { status := .done, url := some resultUrl }
      | .error e =>
        images.set index
          { status := .error, error := some e.message,
            isQuotaError := some (e.isApiError && e.isQuotaError) }
    { optimistic := newOptimistic, committed := committed }

-- Theorems. Claims C1 to C10 of the specification follow, each with the
-- helper lemmas it needs.

/-- Full case characterization of the retry wrapper over the per-attempt
oracle. -/
lemma callGeminiWithRetry_eq {ρ : Type} (oracle : Nat → Except JsError ρ) :
    callGeminiWithRetry oracle =
      match oracle 1 with
      | .ok r => { result := .ok r, calls := 1, delays := [] }
      | .error e1 =>
        if isInternalError e1.message then
          match oracle 2 with
          | .ok r => { result := .ok r, calls := 2, delays := [1000] }
          | .error e2 =>
            if isInternalError e2.message then
              match oracle 3 with
              | .ok r => { result := .ok r, calls := 3, delays := [1000, 2000] }
              | .error e3 => { result := .error e3, calls := 3, delays := [1000, 2000] }
            else { result := .error e2, calls := 2, delays := [1000] }
        else { result := .error e1, calls := 1, delays := [] } := by
  show callGeminiLoop oracle 1 3 = _
  cases h1 : oracle 1 with
  | ok r => simp [callGeminiLoop, h1]
  | error e1 =>
    cases hi1 : isInternalError e1.message with
    | false => simp [callGeminiLoop, h1, hi1, maxRetries]
    | true =>
      cases h2 : oracle 2 with
      | ok r =>
        simp [callGeminiLoop, h1, hi1, h2, maxRetries, initialDelay]
      | error e2 =>
        cases hi2 : isInternalError e2.message with
        | false => simp [callGeminiLoop, h1, hi1, h2, hi2, maxRetries, initialDelay]
        | true =>
          cases h3 : oracle 3 with
          | ok r =>
            simp [callGeminiLoop, h1, hi1, h2, hi2, h3, maxRetries, initialDelay]
          | error e3 =>
            simp [callGeminiLoop, h1, hi1, h2, hi2, h3, maxRetries, initialDelay]

/-- C2: the retry wrapper makes at most 3 attempts; it sleeps a prefix of
the backoff schedule 1000ms, 2000ms, and sleeps the delay before attempt
k+1 only when attempt k failed with the server-internal signature; a
failing run propagates the last failure unchanged; a builder failing
transiently twice then succeeding makes exactly 3 calls, returns the final
success and sleeps 1000ms then 2000ms; a builder failing non-transiently
makes exactly 1 call and propagates that error unchanged. -/
theorem claim_C2_retry_wrapper {ρ : Type} (oracle : Nat → Except JsError ρ) :
    (callGeminiWithRetry oracle).calls ≤ 3 ∧
    ((callGeminiWithRetry oracle).delays = [] ∨
      (callGeminiWithRetry oracle).delays = [1000] ∨
      (callGeminiWithRetry oracle).delays = [1000, 2000]) ∧
    (1 ≤ (callGeminiWithRetry oracle).delays.length →
      ∃ e1, oracle 1 = .error e1 ∧ isInternalError e1.message = true) ∧
    (2 ≤ (callGeminiWithRetry oracle).delays.length →
      ∃ e2, oracle 2 = .error e2 ∧ isInternalError e2.message = true) ∧
    (∀ e, (callGeminiWithRetry oracle).result = .error e →
      1 ≤ (callGeminiWithRetry oracle).calls ∧
      (callGeminiWithRetry oracle).calls ≤ 3 ∧
      oracle ((callGeminiWithRetry oracle).calls) = .error e) ∧
    (∀ e1 e2 r, oracle 1 = .error e1 → isInternalError e1.message = true →
      oracle 2 = .error e2 → isInternalError e2.message = true →
      oracle 3 = .ok r →
      callGeminiWithRetry oracle =
        { result := .ok r, calls := 3, delays := [1000, 2000] }) ∧
    (∀ e1, oracle 1 = .error e1 → isInternalError e1.message = false →
      callGeminiWithRetry oracle =
        { result := .error e1, calls := 1, delays := [] }) := by
  rw [callGeminiWithRetry_eq oracle]
  cases h1 : oracle 1 with
  | ok r => simp
  | error e1 =>
    cases hi1 : isInternalError e1.message with
    | false =>
      simp [h1, hi1]
      intro e1' e2' r he1 ht1
      subst he1
      simp [hi1] at ht1
    | true =>
      cases h2 : oracle 2 with
      | ok r => simp [h1, hi1, h2]
      | error e2 =>
        cases hi2 : isInternalError e2.message with
        | false =>
          simp [h1, hi1, h2, hi2]
          intro e1' e2' r he1 ht1 he2 ht2
          subst he2
          simp [hi2] at ht2
        | true =>
          cases h3 : oracle 3 with
          | ok r => simp [h1, hi1, h2, hi2, h3]
          | error e3 => simp [h1, hi1, h2, hi2, h3]

/-- A request builder failing with the transient signature on the first
two attempts and succeeding on the third. -/
def transientTwiceOracle : Nat → Except JsError Nat :=
  fun attempt =>
    if attempt ≤ 2 then .error (plainError ("INTERNAL".toList)) else .ok 42

/-- A request builder failing with a non-transient signature. -/
def nonTransientOracle : Nat → Except JsError Nat :=
  fun _ => .error (plainError ("bad request".toList))

/-- Witness for C2: both scenario conjuncts apply at concrete request
builders. -/
theorem claim_C2_retry_wrapper_witness :
    callGeminiWithRetry transientTwiceOracle =
      { result := .ok 42, calls := 3, delays := [1000, 2000] } ∧
    callGeminiWithRetry nonTransientOracle =
      { result := .error (plainError ("bad request".toList)), calls := 1, delays := [] } := by
  constructor
  · exact (claim_C2_retry_wrapper transientTwiceOracle).2.2.2.2.2.1
      (plainError ("INTERNAL".toList)) (plainError ("INTERNAL".toList)) 42
      (by decide) (by decide) (by decide) (by decide) (by decide)
  · exact (claim_C2_retry_wrapper nonTransientOracle).2.2.2.2.2.2
      (plainError ("bad request".toList)) (by decide) (by decide)

/-- leadsWith is the take characterization of an initial run. -/
lemma leadsWith_iff_take : ∀ (p s : List Char),
    leadsWith p s = true ↔ s.take p.length = p := by
  intro p
  induction p with
  | nil => intro s; simp [leadsWith]
  | cons a as ih =>
    intro s
    cases s with
    | nil => simp [leadsWith]
    | cons b bs =>
      rw [show leadsWith (a :: as) (b :: bs) = (a == b && leadsWith as bs) from rfl,
        Bool.and_eq_true, beq_iff_eq, ih bs]
      simp only [List.length_cons, List.take_succ_cons, List.cons.injEq]
      constructor
      · rintro ⟨h1, h2⟩; exact ⟨h1.symm, h2⟩
      · rintro ⟨h1, h2⟩; exact ⟨h1.symm, h2⟩

/-- findSubstr finds an initial match at index zero. -/
lemma findSubstr_eq_zero {p s : List Char} (h : leadsWith p s = true) :
    findSubstr p s = some 0 := by
  cases s <;> simp [findSubstr, h]

/-- findSubstr steps over a non-matching head. -/
lemma findSubstr_cons {p : List Char} {c : Char} {t : List Char}
    (h : leadsWith p (c :: t) = false) :
    findSubstr p (c :: t) = (findSubstr p t).map (· + 1) := by
  simp [findSubstr, h]

/-- Searching past a left part with no match shifts the index by its
length. -/
lemma findSubstr_append_shift : ∀ (l r p : List Char),
    (∀ j, j < l.length → leadsWith p (l.drop j ++ r) = false) →
    findSubstr p (l ++ r) = (findSubstr p r).map (· + l.length) := by
  intro l
  induction l with
  | nil =>
    intro r p h
    simp only [List.nil_append, List.length_nil]
    cases findSubstr p r <;> simp
  | cons c l' ih =>
    intro r p h
    have h0 : leadsWith p (c :: (l' ++ r)) = false := by
      have := h 0 (by simp)
      simpa using this
    rw [List.cons_append, findSubstr_cons h0,
      ih r p (fun j hj => by
        have := h (j + 1) (by simpa using Nat.succ_lt_succ hj)
        simpa using this)]
    cases findSubstr p r <;> simp [Nat.add_assoc]

/-- A pattern that findSubstr does not find matches at no position. -/
lemma findSubstr_none_no_match {p : List Char} (hp : p ≠ []) :
    ∀ (s : List Char), findSubstr p s = none →
      ∀ i, leadsWith p (s.drop i) = false := by
  intro s
  induction s with
  | nil =>
    intro _ i
    simp only [List.drop_nil]
    cases p with
    | nil => exact absurd rfl hp
    | cons a as => rfl
  | cons c t ih =>
    intro h i
    cases hl : leadsWith p (c :: t) with
    | true => rw [findSubstr_eq_zero hl] at h; simp at h
    | false =>
      rw [findSubstr_cons hl] at h
      have ht : findSubstr p t = none := by
        cases hft : findSubstr p t with
        | none => rfl
        | some v => rw [hft] at h; simp at h
      cases i with
      | zero => simpa using hl
      | succ i' => simpa using ih ht i'

/-- In a data URL built by processGeminiResponse from a MIME type free of
the marker, the first ";base64," occurrence is exactly the built-in
separator. -/
lemma findSubstr_marker_mkDataUrl (mime payload : List Char)
    (hnone : findSubstr base64Marker mime = none) :
    findSubstr base64Marker (mkDataUrl mime payload) =
      some (5 + mime.length) := by
  have hstruct : mkDataUrl mime payload =
      (dataColon ++ mime) ++ (base64Marker ++ payload) := by
    simp [mkDataUrl, List.append_assoc]
  rw [hstruct, findSubstr_append_shift]
  · rw [findSubstr_eq_zero ((leadsWith_iff_take _ _).mpr (List.take_left _ _))]
    simp only [Option.map_some', List.length_append, Option.some.injEq]
    simp [dataColon]
  · intro j hj
    have hj' : j < 5 + mime.length := by
      simp [dataColon] at hj
      omega
    by_cases hj5 : j < 5
    · interval_cases j <;> rfl
    · have hdrop : (dataColon ++ mime).drop j = mime.drop (j - 5) := by
        rw [List.drop_append_eq_append_drop,
          List.drop_eq_nil_of_le (show dataColon.length ≤ j by simp [dataColon]; omega)]
        simp [dataColon]
      rw [hdrop]
      have hilt : j - 5 < mime.length := by omega
      by_contra hx
      have htrue : leadsWith base64Marker
          (mime.drop (j - 5) ++ (base64Marker ++ payload)) = true := by
        simpa using hx
      rw [leadsWith_iff_take, List.take_append_eq_append_take] at htrue
      have hm8 : base64Marker.length = 8 := rfl
      have hk1 : 1 ≤ (mime.drop (j - 5)).length := by
        rw [List.length_drop]; omega
      by_cases hk8 : 8 ≤ (mime.drop (j - 5)).length
      · have hz : base64Marker.length - (mime.drop (j - 5)).length = 0 := by omega
        rw [hz] at htrue
        simp only [List.take_zero, List.append_nil] at htrue
        have hlead : leadsWith base64Marker (mime.drop (j - 5)) = true :=
          (leadsWith_iff_take _ _).mpr htrue
        have hno := findSubstr_none_no_match (p := base64Marker)
          (by decide) mime hnone (j - 5)
        rw [hno] at hlead
        exact Bool.false_ne_true hlead
      · push_neg at hk8
        have h1 : (mime.drop (j - 5)).take base64Marker.length =
            mime.drop (j - 5) := List.take_of_length_le (by omega)
        have h2 : (base64Marker ++ payload).take
            (base64Marker.length - (mime.drop (j - 5)).length) =
            base64Marker.take (8 - (mime.drop (j - 5)).length) := by
          rw [List.take_append_eq_append_take,
            show base64Marker.length - (mime.drop (j - 5)).length -
              base64Marker.length = 0 by omega]
          simp [hm8]
        rw [h1, h2] at htrue
        have hdropk : base64Marker.drop ((mime.drop (j - 5)).length) =
            base64Marker.take (8 - (mime.drop (j - 5)).length) := by
          conv_lhs => rw [← htrue]
          rw [List.drop_append_eq_append_drop, List.drop_length]
          simp
        set k := (mime.drop (j - 5)).length with hkdef
        clear_value k
        have hk7 : k ≤ 7 := by omega
        interval_cases k <;> exact absurd hdropk (by decide)

/-- C4: decode fails with the format error, whose message embeds the
supplied context label, exactly when the base64 marker is absent or the
input does not start with the image MIME declaration; a matching input
yields the MIME type and payload around the first marker. -/
theorem claim_C4_decode_format (imageDataUrl errorContext : List Char) :
    ((findSubstr base64Marker imageDataUrl = none ∨
        leadsWith dataImageHead imageDataUrl = false) →
      dataUrlToGenaiPart imageDataUrl errorContext =
        .error (plainError (formatErrHead ++ errorContext ++ formatErrTail))) ∧
    (∀ idx, findSubstr base64Marker imageDataUrl = some idx →
      leadsWith dataImageHead imageDataUrl = true →
      dataUrlToGenaiPart imageDataUrl errorContext =
        .ok { mimeType := jsSubstring imageDataUrl 5 idx,
              data := imageDataUrl.drop (idx + base64Marker.length) }) := by
  constructor
  · intro h
    cases hf : findSubstr base64Marker imageDataUrl with
    | none => simp [dataUrlToGenaiPart, hf, formatErrMsg]
    | some idx =>
      rcases h with h | h
      · rw [hf] at h; exact absurd h (by simp)
      · simp [dataUrlToGenaiPart, hf, h, formatErrMsg]
  · intro idx hf hp
    simp [dataUrlToGenaiPart, hf, hp]

/-- Witness for C4: a malformed input fails with the context-bearing
message, and a well-formed input decodes. -/
theorem claim_C4_decode_format_witness :
    dataUrlToGenaiPart ("hello".toList) ("Person Image".toList) =
      .error (plainError (formatErrHead ++ ("Person Image".toList) ++ formatErrTail)) ∧
    dataUrlToGenaiPart ("data:image/png;base64,AAAA".toList) ("Person Image".toList) =
      .ok { mimeType := jsSubstring ("data:image/png;base64,AAAA".toList) 5 14,
            data := ("data:image/png;base64,AAAA".toList).drop (14 + base64Marker.length) } :=
  ⟨(claim_C4_decode_format ("hello".toList) ("Person Image".toList)).1
      (Or.inl (by decide)),
   (claim_C4_decode_format ("data:image/png;base64,AAAA".toList)
      ("Person Image".toList)).2 14 (by decide) (by decide)⟩

/-- C10: for a MIME type starting with image/ and free of the ";base64,"
marker, and any payload, decoding the data URL built in the
response-extraction format returns exactly that MIME type and payload. -/
theorem claim_C10_encode_decode_roundtrip (mime payload errorContext : List Char)
    (himg : leadsWith ("image/".toList) mime = true)
    (hfree : findSubstr base64Marker mime = none) :
    dataUrlToGenaiPart (mkDataUrl mime payload) errorContext =
      .ok { mimeType := mime, data := payload } := by
  have hfind := findSubstr_marker_mkDataUrl mime payload hfree
  have hm6 : mime.take 6 = "image/".toList := by
    have := (leadsWith_iff_take _ _).mp himg
    simpa using this
  have hlen6 : 6 ≤ mime.length := by
    have hl : (mime.take 6).length = 6 := by rw [hm6]; rfl
    rw [List.length_take] at hl
    omega
  have hsplit : mkDataUrl mime payload =
      dataColon ++ (mime ++ (base64Marker ++ payload)) := by
    simp [mkDataUrl, List.append_assoc]
  have hpre : leadsWith dataImageHead (mkDataUrl mime payload) = true := by
    rw [leadsWith_iff_take]
    show (mkDataUrl mime payload).take 11 = dataImageHead
    rw [hsplit, List.take_append_eq_append_take,
      List.take_of_length_le (show dataColon.length ≤ 11 by decide),
      show (11 : Nat) - dataColon.length = 6 from rfl,
      List.take_append_eq_append_take, hm6,
      show (6 : Nat) - mime.length = 0 by omega]
    rfl
  have hmime : jsSubstring (mkDataUrl mime payload) 5 (5 + mime.length) = mime := by
    unfold jsSubstring
    rw [show min 5 (5 + mime.length) = 5 by omega,
      show max 5 (5 + mime.length) = 5 + mime.length by omega,
      show 5 + mime.length - 5 = mime.length by omega,
      hsplit, List.drop_left' (show dataColon.length = 5 from rfl),
      List.take_left]
  have hdata : (mkDataUrl mime payload).drop
      (5 + mime.length + base64Marker.length) = payload := by
    have hsplit2 : mkDataUrl mime payload =
        ((dataColon ++ mime) ++ base64Marker) ++ payload := by
      simp [mkDataUrl, List.append_assoc]
    rw [hsplit2, List.drop_left']
    simp [dataColon]
    omega
  simp [dataUrlToGenaiPart, hfind, hpre, hmime, hdata]

/-- Witness for C10: a concrete MIME type and payload round-trip. -/
theorem claim_C10_encode_decode_roundtrip_witness :
    dataUrlToGenaiPart (mkDataUrl ("image/jpeg".toList) ("Zm9v".toList))
        ("Style Image".toList) =
      .ok { mimeType := "image/jpeg".toList, data := "Zm9v".toList } :=
  claim_C10_encode_decode_roundtrip ("image/jpeg".toList) ("Zm9v".toList)
    ("Style Image".toList) (by decide) (by decide)

/-- Counterexample for C5: with a whitespace-only (blank but non-empty)
subject description and all other inputs empty, every input is blank, yet
generateScenarios performs a network call and does not return the fallback
list: the truthiness test of the source only treats the empty description
as absent. -/
theorem claim_C5_fallback_counterexample :
    (generateScenarios [' '] [] [] []
        (.ok ("[\"x\"]".toList))).networkCalls = 1 ∧
    (generateScenarios [' '] [] [] []
        (.ok ("[\"x\"]".toList))).result ≠ .ok fallbackScenarios := by
  constructor
  · rfl
  · decide

/-- C5 (amended): when the three descriptions are empty strings and the
user intent is empty or blank, generateScenarios returns the fixed
built-in fallback list of exactly 5 scenarios with zero network calls. -/
theorem claim_C5_fallback_amended
    (personDesc objectDesc styleDesc userPrompt : List Char)
    (service : Except JsError (List Char))
    (hp : personDesc = []) (ho : objectDesc = []) (hs : styleDesc = [])
    (hu : jsTrim userPrompt = []) :
    generateScenarios personDesc objectDesc styleDesc userPrompt service =
      { result := .ok fallbackScenarios, networkCalls := 0 } ∧
    fallbackScenarios.length = 5 := by
  subst hp; subst ho; subst hs
  refine ⟨?_, rfl⟩
  unfold generateScenarios
  simp [hu]

/-- Witness for C5 (amended): empty descriptions and a blank user intent
hit the fallback with zero calls. -/
theorem claim_C5_fallback_amended_witness :
    generateScenarios [] [] [] ("  ".toList) (.error (plainError [])) =
      { result := .ok fallbackScenarios, networkCalls := 0 } ∧
    fallbackScenarios.length = 5 :=
  claim_C5_fallback_amended [] [] [] ("  ".toList) (.error (plainError []))
    rfl rfl rfl (by decide)

/-- The non-empty all-strings reading of a parsed JSON value: the source
validation Array.isArray, length positive, every element a string. -/
def isNonemptyStringArray : Json → Option (List (List Char))
  | Json.arr elems => if elems.isEmpty then none else asStringList elems
  | _ => none

/-- C6: with the service path taken, generateScenarios parses the
fence-stripped trimmed text as JSON; a parse result that is a non-empty
array of strings yields its first 5 entries, any other parse result yields
the invalid-scenario error; in particular a six-string array is truncated
to the first five and a JSON object fails. -/
theorem claim_C6_scenario_parse
    (personDesc objectDesc styleDesc userPrompt text : List Char)
    (hne : personDesc ≠ []) :
    (∀ j strs, parseJson (stripCodeFence (jsTrim text)) = some j →
      isNonemptyStringArray j = some strs →
      (generateScenarios personDesc objectDesc styleDesc userPrompt
          (.ok text)).result = .ok (strs.take 5)) ∧
    (∀ j, parseJson (stripCodeFence (jsTrim text)) = some j →
      isNonemptyStringArray j = none →
      (generateScenarios personDesc objectDesc styleDesc userPrompt
          (.ok text)).result =
        .error (classifyScenariosError (plainError invalidScenarioMsg))) ∧
    (generateScenarios ("d".toList) [] [] []
        (.ok ("[\"a\",\"b\",\"c\",\"d\",\"e\",\"f\"]".toList))).result =
      .ok ["a".toList, "b".toList, "c".toList, "d".toList, "e".toList] ∧
    ((generateScenarios ("d".toList) [] [] []
        (.ok ((obraceC :: [cbraceC])))).result =
      .error (classifyScenariosError (plainError invalidScenarioMsg))) := by
  refine ⟨?_, ?_, by decide, by decide⟩
  · intro j strs hj hs
    cases j with
    | arr elems =>
      have hemp : elems.isEmpty = false := by
        by_contra hx
        have : elems.isEmpty = true := by
          cases h : elems.isEmpty
          · exact absurd h hx
          · rfl
        simp [isNonemptyStringArray, this] at hs
      have hstr : asStringList elems = some strs := by
        simpa [isNonemptyStringArray, hemp] using hs
      simp [generateScenarios, hne, hj, hemp, hstr]
    | null => simp [isNonemptyStringArray] at hs
    | bool b => simp [isNonemptyStringArray] at hs
    | num raw => simp [isNonemptyStringArray] at hs
    | str s => simp [isNonemptyStringArray] at hs
    | obj fields => simp [isNonemptyStringArray] at hs
  · intro j hj hs
    cases j with
    | arr elems =>
      cases hemp : elems.isEmpty with
      | true => simp [generateScenarios, hne, hj, hemp]
      | false =>
        have hstr : asStringList elems = none := by
          simpa [isNonemptyStringArray, hemp] using hs
        simp [generateScenarios, hne, hj, hemp, hstr]
    | null => simp [generateScenarios, hne, hj]
    | bool b => simp [generateScenarios, hne, hj]
    | num raw => simp [generateScenarios, hne, hj]
    | str s => simp [generateScenarios, hne, hj]
    | obj fields => simp [generateScenarios, hne, hj]

/-- Witness for C6: the quantified conjuncts apply at the concrete
six-string array and at a concrete JSON object. -/
theorem claim_C6_scenario_parse_witness :
    (generateScenarios ("x".toList) [] [] []
        (.ok ("[\"a\",\"b\",\"c\",\"d\",\"e\",\"f\"]".toList))).result =
      .ok (["a".toList, "b".toList, "c".toList, "d".toList, "e".toList,
            "f".toList].take 5) ∧
    (generateScenarios ("x".toList) [] [] []
        (.ok (obraceC :: [cbraceC]))).result =
      .error (classifyScenariosError (plainError invalidScenarioMsg)) := by
  constructor
  · exact (claim_C6_scenario_parse ("x".toList) [] [] []
      ("[\"a\",\"b\",\"c\",\"d\",\"e\",\"f\"]".toList) (by decide)).1
      (Json.arr (["a".toList, "b".toList, "c".toList, "d".toList, "e".toList,
        "f".toList].map Json.str))
      ["a".toList, "b".toList, "c".toList, "d".toList, "e".toList, "f".toList]
      rfl (by decide)
  · exact (claim_C6_scenario_parse ("x".toList) [] [] []
      (obraceC :: [cbraceC]) (by decide)).2.1 (Json.obj [])
      rfl (by decide)

/-- A constant-failure request builder always surfaces that same failure
from the retry wrapper (after retries when the signature is transient). -/
lemma callGeminiWithRetry_const_error {ρ : Type} (e : JsError) :
    (callGeminiWithRetry (fun _ => (.error e : Except JsError ρ))).result =
      .error e := by
  rw [callGeminiWithRetry_eq]
  cases hi : isInternalError e.message <;> simp [hi]

/-- A concrete well-formed source data URL used by several witnesses. -/
def sampleDataUrl : List Char := "data:image/png;base64,AAAA".toList

/-- C3: for each of the five generation functions, an underlying service
failure whose message carries the 429 or RESOURCE_EXHAUSTED signature
surfaces as a quota-flagged ApiError, and any other failure surfaces as
the generic generation ApiError of that function carrying the underlying
message, not quota-flagged. -/
theorem claim_C3_quota_classification (e : JsError) (prompt : List Char) :
    ((hasQuotaSignature e.message = true →
      ∃ err, (generateScenarios ("d".toList) [] [] [] (.error e)).result =
          .error err ∧ err.isApiError = true ∧ err.isQuotaError = true) ∧
     (hasQuotaSignature e.message = false →
      (generateScenarios ("d".toList) [] [] [] (.error e)).result =
        .error (apiError (("The AI failed to generate creative ideas. Details: ".toList)
          ++ e.message) false))) ∧
    ((hasQuotaSignature e.message = true →
      ∃ err, generateStyledImage ⟨[], [], []⟩ prompt (fun _ => .error e) =
          .error err ∧ err.isApiError = true ∧ err.isQuotaError = true) ∧
     (hasQuotaSignature e.message = false →
      generateStyledImage ⟨[], [], []⟩ prompt (fun _ => .error e) =
        .error (apiError (("The AI model failed to generate an image. Details: ".toList)
          ++ e.message) false))) ∧
    ((hasQuotaSignature e.message = true →
      ∃ err, generateMemeImage sampleDataUrl prompt (fun _ => .error e) =
          .error err ∧ err.isApiError = true ∧ err.isQuotaError = true) ∧
     (hasQuotaSignature e.message = false →
      generateMemeImage sampleDataUrl prompt (fun _ => .error e) =
        .error (apiError (("The AI model failed to generate the meme. Details: ".toList)
          ++ e.message) false))) ∧
    ((hasQuotaSignature e.message = true →
      ∃ err, (analyzeImageContent [sampleDataUrl] prompt (.error e)).result =
          .error err ∧ err.isApiError = true ∧ err.isQuotaError = true) ∧
     (hasQuotaSignature e.message = false →
      (analyzeImageContent [sampleDataUrl] prompt (.error e)).result =
        .error (apiError (("The AI model failed to analyze the image content. Details: ".toList)
          ++ e.message) false))) ∧
    ((hasQuotaSignature e.message = true →
      ∃ err run, generateStyledVideo sampleDataUrl prompt (.error e) []
          (fun _ => .error (plainError [])) = some run ∧
        run.result = .error err ∧ err.isApiError = true ∧ err.isQuotaError = true) ∧
     (hasQuotaSignature e.message = false →
      generateStyledVideo sampleDataUrl prompt (.error e) []
          (fun _ => .error (plainError [])) =
        some { result := .error (apiError
            (("The AI model failed to generate a video. Details: ".toList) ++ e.message)
            false), waits := [], fetchCalls := 0 })) := by
  have hretry := callGeminiWithRetry_const_error (ρ := GenResponse) e
  have hmeme : dataUrlToGenaiPart sampleDataUrl ("Meme Source Image".toList) =
      .ok { mimeType := "image/png".toList, data := "AAAA".toList } := by decide
  have hanalyze : dataUrlToGenaiPart sampleDataUrl ("Image for analysis".toList) =
      .ok { mimeType := "image/png".toList, data := "AAAA".toList } := by decide
  have hvurl : videoUrlMatch sampleDataUrl =
      some ("image/png".toList, "AAAA".toList) := by decide
  refine ⟨⟨?_, ?_⟩, ⟨?_, ?_⟩, ⟨?_, ?_⟩, ⟨?_, ?_⟩, ⟨?_, ?_⟩⟩ <;> intro hq
  · refine ⟨classifyScenariosError e, ?_, ?_, ?_⟩
    · simp [generateScenarios]
    · simp [classifyScenariosError, hq, apiError]
    · simp [classifyScenariosError, hq, apiError]
  · simp [generateScenarios, classifyScenariosError, hq]
  · refine ⟨classifyStyledImageError e, ?_, ?_, ?_⟩
    · simp [generateStyledImage, hretry, List.mapM, List.mapM.loop]
      rfl
    · simp [classifyStyledImageError, hq, apiError]
    · simp [classifyStyledImageError, hq, apiError]
  · simp [generateStyledImage, hretry, classifyStyledImageError, hq,
      List.mapM, List.mapM.loop]
    rfl
  · refine ⟨classifyMemeError e, ?_, ?_, ?_⟩
    · simp [generateMemeImage, hretry, hmeme]
      rfl
    · simp [classifyMemeError, hq, apiError]
    · simp [classifyMemeError, hq, apiError]
  · simp [generateMemeImage, hretry, classifyMemeError, hq, hmeme]
    rfl
  · refine ⟨classifyAnalyzeError e,
      ?_, ?_, ?_⟩
    · simp [analyzeImageContent, hanalyze, List.mapM, List.mapM.loop]
      rfl
    · simp [classifyAnalyzeError, hq, apiError]
    · simp [classifyAnalyzeError, hq, apiError]
  · simp [analyzeImageContent, classifyAnalyzeError, hq, hanalyze,
      List.mapM, List.mapM.loop]
    rfl
  · refine ⟨classifyVideoError e,
      { result := .error (classifyVideoError e), waits := [], fetchCalls := 0 },
      ?_, rfl, ?_, ?_⟩
    · simp [generateStyledVideo, hvurl]
    · simp [classifyVideoError, hq, apiError]
    · simp [classifyVideoError, hq, apiError]
  · simp [generateStyledVideo, classifyVideoError, hq, hvurl]

/-- Witness for C3: a non-quota failure surfaces the generic scenario
error carrying the message, and a 429 failure surfaces quota-flagged. -/
theorem claim_C3_quota_classification_witness :
    ((generateScenarios ("d".toList) [] [] []
        (.error (plainError ("boom".toList)))).result =
      .error (apiError (("The AI failed to generate creative ideas. Details: ".toList)
        ++ ("boom".toList)) false)) ∧
    (∃ err, (generateScenarios ("d".toList) [] [] []
        (.error (plainError ("429".toList)))).result = .error err ∧
      err.isApiError = true ∧ err.isQuotaError = true) := by
  constructor
  · exact ((claim_C3_quota_classification (plainError ("boom".toList)) []).1).2
      (by decide)
  · exact ((claim_C3_quota_classification (plainError ("429".toList)) []).1).1
      (by decide)

/-- An operation that is not yet done. -/
def pendingOperation : VideoOperation := { done := false, response := none }

/-- A completed operation carrying a download locator. -/
def doneOperationWith (uri : List Char) : VideoOperation :=
  { done := true,
    response := some { generatedVideos := some [{ video := some { uri := some uri } }] } }

/-- C8: for the poll sequence not-done, not-done, done-with-locator the
run sleeps exactly two 10-second waits before fetching once and returns
the fetched handle; a done operation without a locator fails with the
completed-but-no-result error, not quota flagged, performing no fetch; and
in every scripted run a handle is returned only when the single fetch of
the locator succeeded with that handle. -/
theorem claim_C8_video_polling (prompt : List Char) :
    (∀ (uri : List Char) (resp : FetchResponse)
        (fetchOracle : List Char → Except JsError FetchResponse),
      fetchOracle uri = .ok resp → resp.ok = true →
      generateStyledVideo sampleDataUrl prompt (.ok pendingOperation)
          [.ok pendingOperation, .ok (doneOperationWith uri)] fetchOracle =
        some { result := .ok resp.blobId, waits := [10000, 10000], fetchCalls := 1 }) ∧
    (∀ (fetchOracle : List Char → Except JsError FetchResponse),
      generateStyledVideo sampleDataUrl prompt
          (.ok { done := true, response := none }) [] fetchOracle =
        some { result := .error (classifyVideoError (plainError noDownloadLinkMsg)),
               waits := [], fetchCalls := 0 } ∧
      (classifyVideoError (plainError noDownloadLinkMsg)).isQuotaError = false) ∧
    (∀ (imageDataUrl : List Char) (startResult : Except JsError VideoOperation)
        (polls : List (Except JsError VideoOperation))
        (fetchOracle : List Char → Except JsError FetchResponse) (run : VideoRun),
      generateStyledVideo imageDataUrl prompt startResult polls fetchOracle = some run →
      ∀ handle, run.result = .ok handle →
        run.fetchCalls = 1 ∧
        ∃ link resp, fetchOracle link = .ok resp ∧ resp.ok = true ∧
          resp.blobId = handle) := by
  have hvurl : videoUrlMatch sampleDataUrl =
      some ("image/png".toList, "AAAA".toList) := by decide
  refine ⟨?_, ?_, ?_⟩
  · intro uri resp fetchOracle hf hok
    have hpoll : pollVideoOperation pendingOperation
        [.ok pendingOperation, .ok (doneOperationWith uri)] =
        some (.ok (doneOperationWith uri), [10000, 10000]) := by
      simp [pollVideoOperation, pendingOperation, doneOperationWith]
    have hlink : operationDownloadLink (doneOperationWith uri) = some uri := by
      simp [operationDownloadLink, doneOperationWith]
    simp [generateStyledVideo, hvurl, hpoll, hlink, hf, hok]
  · intro fetchOracle
    refine ⟨?_, by decide⟩
    have hpoll : pollVideoOperation
        ({ done := true, response := none } : VideoOperation) [] =
        some (.ok { done := true, response := none }, []) := by
      simp [pollVideoOperation]
    simp [generateStyledVideo, hvurl, hpoll, operationDownloadLink]
  · intro imageDataUrl startResult polls fetchOracle run hrun handle hres
    rw [generateStyledVideo.eq_def] at hrun
    split at hrun
    · simp only [Option.some.injEq] at hrun
      rw [← hrun] at hres
      simp at hres
    · split at hrun
      · simp only [Option.some.injEq] at hrun
        rw [← hrun] at hres
        simp at hres
      · split at hrun
        · simp at hrun
        · simp only [Option.some.injEq] at hrun
          rw [← hrun] at hres
          simp at hres
        · split at hrun
          · simp only [Option.some.injEq] at hrun
            rw [← hrun] at hres
            simp at hres
          · rename_i finalOp waits hpoll downloadLink hlink
            split at hrun
            · simp only [Option.some.injEq] at hrun
              rw [← hrun] at hres
              simp at hres
            · rename_i response hfetch
              split at hrun
              · rename_i hok
                simp only [Option.some.injEq] at hrun
                subst hrun
                simp only at hres
                refine ⟨rfl, downloadLink, response, hfetch, hok, ?_⟩
                simpa using hres
              · simp only [Option.some.injEq] at hrun
                rw [← hrun] at hres
                simp at hres

/-- A fetch oracle that succeeds with a fixed blob handle. -/
def sampleFetchOracle : List Char → Except JsError FetchResponse :=
  fun _ => .ok { ok := true, statusText := [], blobId := 7 }

/-- Witness for C8: the two scenario conjuncts apply at concrete scripts. -/
theorem claim_C8_video_polling_witness :
    generateStyledVideo sampleDataUrl [] (.ok pendingOperation)
        [.ok pendingOperation, .ok (doneOperationWith ("u".toList))]
        sampleFetchOracle =
      some { result := .ok 7, waits := [10000, 10000], fetchCalls := 1 } ∧
    generateStyledVideo sampleDataUrl []
        (.ok { done := true, response := none }) [] sampleFetchOracle =
      some { result := .error (classifyVideoError (plainError noDownloadLinkMsg)),
             waits := [], fetchCalls := 0 } := by
  constructor
  · exact (claim_C8_video_polling []).1 ("u".toList)
      { ok := true, statusText := [], blobId := 7 } sampleFetchOracle rfl rfl
  · exact ((claim_C8_video_polling []).2.1 sampleFetchOracle).1

/-- C9: when index i holds a known (non-empty) scenario, regeneration of i
leaves every other index of both the optimistic and the committed list
untouched, shows i as pending while in flight, and commits a done item
with the new URL on success or an error item carrying the message on
failure. -/
theorem claim_C9_regeneration_index_stable
    (index : Nat) (outcome : Except JsError (List Char))
    (sessionScenarios : List (List Char)) (images : List GeneratedImage)
    (hscen : sessionScenarios.getD index [] ≠ []) :
    (∀ j, j ≠ index →
      (handleRegenerateImage index outcome sessionScenarios images).optimistic[j]? =
        images[j]? ∧
      (handleRegenerateImage index outcome sessionScenarios images).committed[j]? =
        images[j]?) ∧
    (index < images.length →
      (handleRegenerateImage index outcome sessionScenarios images).optimistic[index]? =
        some pendingImage ∧
      (∀ url, outcome = .ok url →
        (handleRegenerateImage index outcome sessionScenarios images).committed[index]? =
          some { status := .done, url := some url }) ∧
      (∀ e, outcome = .error e →
        (handleRegenerateImage index outcome sessionScenarios images).committed[index]? =
          some { status := .error, error := some e.message,
                 isQuotaError := some false })) ∧
    (handleRegenerateImage index outcome sessionScenarios images).optimistic.length =
      images.length ∧
    (handleRegenerateImage index outcome sessionScenarios images).committed.length =
      images.length := by
  unfold handleRegenerateImage
  rw [if_neg hscen]
  refine ⟨?_, ?_, ?_, ?_⟩
  · intro j hj
    cases outcome with
    | ok url =>
      simp [generateImageForIndex, List.getElem?_set_ne (Ne.symm hj)]
    | error e =>
      simp [generateImageForIndex, List.getElem?_set_ne (Ne.symm hj)]
  · intro hlt
    refine ⟨?_, ?_, ?_⟩
    · simp [List.getElem?_set_eq_of_lt _ hlt]
    · intro url hout
      subst hout
      simp [generateImageForIndex, List.getElem?_set_eq_of_lt _ hlt]
    · intro e hout
      subst hout
      simp [generateImageForIndex, plainError,
        List.getElem?_set_eq_of_lt _ hlt]
  · cases outcome <;> simp [generateImageForIndex]
  · cases outcome <;> simp [generateImageForIndex]

/-- Witness for C9: a concrete two-item list regenerated at index 0
leaves index 1 untouched and commits the new item at index 0. -/
theorem claim_C9_regeneration_index_stable_witness :
    ((handleRegenerateImage 0 (.ok sampleDataUrl) ["s".toList]
        [{ status := .error }, { status := .done }]).optimistic[1]? =
      some { status := .done } ∧
    (handleRegenerateImage 0 (.ok sampleDataUrl) ["s".toList]
        [{ status := .error }, { status := .done }]).committed[1]? =
      some { status := .done }) ∧
    (handleRegenerateImage 0 (.ok sampleDataUrl) ["s".toList]
        [{ status := .error }, { status := .done }]).committed[0]? =
      some { status := .done, url := some sampleDataUrl } := by
  constructor
  · exact (claim_C9_regeneration_index_stable 0 (.ok sampleDataUrl) ["s".toList]
      [{ status := .error }, { status := .done }] (by decide)).1 1 (by decide)
  · exact ((claim_C9_regeneration_index_stable 0 (.ok sampleDataUrl) ["s".toList]
      [{ status := .error }, { status := .done }] (by decide)).2.1
      (by decide)).2.1 sampleDataUrl rfl

/-- C7: if the analysis join or the scenario generation fails before the
per-scenario dispatch, every one of the IMAGE_COUNT display slots is set
to the same error item carrying that failure message and the session
moves directly to results-shown. -/
theorem claim_C7_global_failure
    (personImages productImages styleImages : List (List Char))
    (mainPrompt : List Char)
    (personService productService styleService scenarioService :
      Except JsError (List Char))
    (styledImage : Nat → List Char → Except JsError (List Char))
    (st : AppSession)
    (hguard : ¬ (personImages = [] ∧ productImages = [] ∧ styleImages = [])) :
    (∀ e,
      promiseAll3
          (analyzeImageContent personImages personAnalysisPrompt personService).result
          (analyzeImageContent productImages objectAnalysisPrompt productService).result
          (analyzeImageContent styleImages styleAnalysisPrompt styleService).result =
        .error e →
      handleGenerateClick personImages productImages styleImages mainPrompt
          personService productService styleService scenarioService styledImage st =
        { st with
          generatedImages := List.replicate IMAGE_COUNT (globalErrorImage e),
          appState := .resultsShown } ∧
      ∀ item ∈ (handleGenerateClick personImages productImages styleImages mainPrompt
          personService productService styleService scenarioService styledImage
          st).generatedImages,
        item.status = .error ∧ item.error = some e.message) ∧
    (∀ personDesc objectDesc styleDesc e,
      promiseAll3
          (analyzeImageContent personImages personAnalysisPrompt personService).result
          (analyzeImageContent productImages objectAnalysisPrompt productService).result
          (analyzeImageContent styleImages styleAnalysisPrompt styleService).result =
        .ok (personDesc, objectDesc, styleDesc) →
      (generateScenarios personDesc objectDesc styleDesc mainPrompt
          scenarioService).result = .error e →
      handleGenerateClick personImages productImages styleImages mainPrompt
          personService productService styleService scenarioService styledImage st =
        { st with
          generatedImages := List.replicate IMAGE_COUNT (globalErrorImage e),
          appState := .resultsShown } ∧
      ∀ item ∈ (handleGenerateClick personImages productImages styleImages mainPrompt
          personService productService styleService scenarioService styledImage
          st).generatedImages,
        item.status = .error ∧ item.error = some e.message) := by
  constructor
  · intro e he
    have hrun : handleGenerateClick personImages productImages styleImages mainPrompt
        personService productService styleService scenarioService styledImage st =
      { st with
        generatedImages := List.replicate IMAGE_COUNT (globalErrorImage e),
        appState := .resultsShown } := by
      simp only [handleGenerateClick]
      rw [if_neg hguard]
      simp only [he]
    refine ⟨hrun, ?_⟩
    intro item him
    rw [hrun] at him
    simp only [] at him
    have := List.eq_of_mem_replicate him
    subst this
    exact ⟨rfl, rfl⟩
  · intro personDesc objectDesc styleDesc e hok he
    have hrun : handleGenerateClick personImages productImages styleImages mainPrompt
        personService productService styleService scenarioService styledImage st =
      { st with
        generatedImages := List.replicate IMAGE_COUNT (globalErrorImage e),
        appState := .resultsShown } := by
      simp only [handleGenerateClick]
      rw [if_neg hguard]
      simp only [hok, he]
    refine ⟨hrun, ?_⟩
    intro item him
    rw [hrun] at him
    simp only [] at him
    have := List.eq_of_mem_replicate him
    subst this
    exact ⟨rfl, rfl⟩

/-- Witness for C7: with one source image whose analysis call fails, all
five slots carry that failure and the session shows results. -/
theorem claim_C7_global_failure_witness :
    handleGenerateClick [sampleDataUrl] [] [] []
        (.error (plainError ("boom".toList))) (.ok []) (.ok []) (.ok [])
        (fun _ _ => .ok []) ⟨[], [], .ready⟩ =
      ⟨List.replicate IMAGE_COUNT
          (globalErrorImage (classifyAnalyzeError (plainError ("boom".toList)))),
        [], .resultsShown⟩ := by
  exact ((claim_C7_global_failure [sampleDataUrl] [] [] []
      (.error (plainError ("boom".toList))) (.ok []) (.ok []) (.ok [])
      (fun _ _ => .ok []) ⟨[], [], .ready⟩
      (by decide)).1 (classifyAnalyzeError (plainError ("boom".toList)))
      (by decide)).1

/-- The styled-image oracle of the C1 concrete scenario: index 1 fails,
indices 0 and 2 succeed. -/
def middleFailOracle : Nat → List Char → Except JsError (List Char) :=
  fun index _ =>
    if index = 1 then .error (plainError ("boom".toList)) else .ok sampleDataUrl

/-- C1: once scenarios are produced, the full-session run commits exactly
one item per scenario, every item is terminal and determined solely by its
own dispatch outcome (two oracles agreeing at an index commit the same
item there, whatever they do elsewhere), and the session shows results; in
the concrete three-scenario run where index 1 fails the committed statuses
are done, error, done. -/
theorem claim_C1_settle_all
    (personImages productImages styleImages : List (List Char))
    (mainPrompt : List Char)
    (personService productService styleService scenarioService :
      Except JsError (List Char))
    (styledImage styledImage2 : Nat → List Char → Except JsError (List Char))
    (st : AppSession)
    (hguard : ¬ (personImages = [] ∧ productImages = [] ∧ styleImages = []))
    (personDesc objectDesc styleDesc : List Char)
    (hok : promiseAll3
        (analyzeImageContent personImages personAnalysisPrompt personService).result
        (analyzeImageContent productImages objectAnalysisPrompt productService).result
        (analyzeImageContent styleImages styleAnalysisPrompt styleService).result =
      .ok (personDesc, objectDesc, styleDesc))
    (scen : List (List Char))
    (hscen : (generateScenarios personDesc objectDesc styleDesc mainPrompt
        scenarioService).result = .ok scen) :
    (handleGenerateClick personImages productImages styleImages mainPrompt
        personService productService styleService scenarioService styledImage
        st).sessionScenarios = scen ∧
    (handleGenerateClick personImages productImages styleImages mainPrompt
        personService productService styleService scenarioService styledImage
        st).appState = .resultsShown ∧
    (handleGenerateClick personImages productImages styleImages mainPrompt
        personService productService styleService scenarioService styledImage
        st).generatedImages.length = scen.length ∧
    (∀ i, i < scen.length →
      (handleGenerateClick personImages productImages styleImages mainPrompt
          personService productService styleService scenarioService styledImage
          st).generatedImages[i]? =
        some (settleImageResult (generateImageForIndex
          (styledImage i (scen.getD i []))))) ∧
    (∀ i, i < scen.length →
      ((handleGenerateClick personImages productImages styleImages mainPrompt
          personService productService styleService scenarioService styledImage
          st).generatedImages.getD i pendingImage).status = .done ∨
      ((handleGenerateClick personImages productImages styleImages mainPrompt
          personService productService styleService scenarioService styledImage
          st).generatedImages.getD i pendingImage).status = .error) ∧
    (∀ i, styledImage i (scen.getD i []) = styledImage2 i (scen.getD i []) →
      (handleGenerateClick personImages productImages styleImages mainPrompt
          personService productService styleService scenarioService styledImage
          st).generatedImages[i]? =
      (handleGenerateClick personImages productImages styleImages mainPrompt
          personService productService styleService scenarioService styledImage2
          st).generatedImages[i]?) ∧
    ((handleGenerateClick [sampleDataUrl] [] [] [] (.ok ("d".toList)) (.ok [])
        (.ok []) (.ok ("[\"s1\",\"s2\",\"s3\"]".toList)) middleFailOracle
        ⟨[], [], .ready⟩).generatedImages.map GeneratedImage.status) =
      [.done, .error, .done] := by
  have hrun : ∀ (oracle : Nat → List Char → Except JsError (List Char)),
      handleGenerateClick personImages productImages styleImages mainPrompt
        personService productService styleService scenarioService oracle st =
      { generatedImages := (scen.mapIdx (fun index scenario =>
          generateImageForIndex (oracle index scenario))).map settleImageResult,
        sessionScenarios := scen,
        appState := .resultsShown } := by
    intro oracle
    simp only [handleGenerateClick]
    rw [if_neg hguard]
    simp only [hok, hscen]
  have hidx : ∀ (oracle : Nat → List Char → Except JsError (List Char)) i,
      i < scen.length →
      (handleGenerateClick personImages productImages styleImages mainPrompt
        personService productService styleService scenarioService oracle
        st).generatedImages[i]? =
      some (settleImageResult (generateImageForIndex
        (oracle i (scen.getD i [])))) := by
    intro oracle i hi
    rw [hrun oracle]
    simp only [List.getElem?_map, List.getElem?_mapIdx,
      List.getElem?_eq_getElem hi, Option.map_some']
    rw [List.getD_eq_getElem?_getD, List.getElem?_eq_getElem hi]
    rfl
  refine ⟨by rw [hrun styledImage], by rw [hrun styledImage], ?_, hidx styledImage,
      ?_, ?_, by decide⟩
  · rw [hrun styledImage]
    simp
  · intro i hi
    have h := hidx styledImage i hi
    rw [List.getD_eq_getElem?_getD, h]
    cases houtcome : styledImage i (scen.getD i []) with
    | ok url => simp [settleImageResult, generateImageForIndex, houtcome]
    | error e => simp [settleImageResult, generateImageForIndex, houtcome]
  · intro i hagree
    by_cases hi : i < scen.length
    · rw [hidx styledImage i hi, hidx styledImage2 i hi, hagree]
    · rw [hrun styledImage, hrun styledImage2]
      have hnone : scen[i]? = none := by
        rw [List.getElem?_eq_none]
        omega
      simp [List.getElem?_map, List.getElem?_mapIdx, hnone]

/-- Witness for C1: the concrete three-scenario run satisfies every
hypothesis and commits all three scenarios with the session shown. -/
theorem claim_C1_settle_all_witness :
    (handleGenerateClick [sampleDataUrl] [] [] [] (.ok ("d".toList)) (.ok [])
        (.ok []) (.ok ("[\"s1\",\"s2\",\"s3\"]".toList)) middleFailOracle
        ⟨[], [], .ready⟩).sessionScenarios =
      ["s1".toList, "s2".toList, "s3".toList] ∧
    (handleGenerateClick [sampleDataUrl] [] [] [] (.ok ("d".toList)) (.ok [])
        (.ok []) (.ok ("[\"s1\",\"s2\",\"s3\"]".toList)) middleFailOracle
        ⟨[], [], .ready⟩).appState = .resultsShown := by
  have h := claim_C1_settle_all [sampleDataUrl] [] [] []
    (.ok ("d".toList)) (.ok []) (.ok [])
    (.ok ("[\"s1\",\"s2\",\"s3\"]".toList)) middleFailOracle middleFailOracle
    ⟨[], [], .ready⟩ (by decide) ("d".toList) [] [] (by decide)
    ["s1".toList, "s2".toList, "s3".toList] (by decide)
  exact ⟨h.1, h.2.1⟩
